import Mathlib

/-!
Verification of the Law-agent retrieval layer (`src/Law_agent.py`).

The repository defines a pydantic-ai agent with a single tool, `expert`,
that POSTs the query to a fixed knowledge-base endpoint and returns either
the raw response body or an in-band error string.  The shallow embedding
below models the deterministic parts of the file: the `ExpertDeps`
dataclass, the request built by `expert`, the try/except control flow of
`expert` over an abstract outcome of the HTTP call, and the resource
lifecycle of `run_agent_query` as an event trace.
-/

namespace LawAgent

/-- Outcome of the outbound `client.post` call, as seen by the `expert`
tool.  `httpx` reports a timeout as a `TimeoutException`, a subclass of
`RequestError`, and any other connection failure as a `RequestError`;
otherwise the call completes with a status code and a body text. -/
inductive HttpOutcome where
  | timeout (desc : String)
  | connectError (desc : String)
  | response (status : Nat) (body : String)
  deriving DecidableEq, Repr

/-- Exceptions of the `httpx` library that the tool's `except` clauses
name: `httpx.RequestError` (network/timeout) and `httpx.HTTPStatusError`
(raised by `raise_for_status`, carrying the response). -/
inductive HttpxError where
  | requestError (desc : String)
  | httpStatusError (status : Nat) (body : String)
  deriving DecidableEq, Repr

/-- Embedding of the `ExpertDeps` dataclass (src/Law_agent.py lines
37-41): a reusable HTTP client (modelled by an abstract identifier) and
an optional API key defaulting to `None`. -/
structure ExpertDeps where
  client : Nat
  expert_api_key : Option String := none
  deriving DecidableEq, Repr

/-- The single HTTP request the `expert` tool builds: fixed URL, the two
headers, the JSON body `query -> q` as a key/value list, and the fixed
timeout in seconds. -/
structure HttpRequest where
  url : String
  accept : String
  xApiKey : Option String
  jsonBody : List (String × String)
  timeout : Nat
  deriving DecidableEq, Repr

/-- The request issued by `expert` (src/Law_agent.py lines 154-168):
POST to the fixed endpoint with headers `accept: application/json` and
`X-API-Key: ctx.deps.expert_api_key`, JSON body `query -> query`, and
`timeout=15.0`. -/
def expertRequest (deps : ExpertDeps) (query : String) : HttpRequest :=
  { url := "https://n8n-lightrag.dfngk5.easypanel.host/query"
    accept := "application/json"
    xApiKey := deps.expert_api_key
    jsonBody := [("query", query)]
    timeout := 15 }

/-- The list of outbound HTTP requests one invocation of `expert`
performs: the body contains exactly one `client.post` call, executed
unconditionally. -/
def expertCalls (deps : ExpertDeps) (query : String) : List HttpRequest :=
  [expertRequest deps query]

/-- Success range of HTTP status codes (2xx), the range for which
`httpx.Response.raise_for_status` does not raise. -/
def isSuccess (status : Nat) : Bool :=
  200 ≤ status && status ≤ 299

/-- Embedding of `response.raise_for_status()`: raises `HTTPStatusError`
carrying the response's status and body when the status is outside the
success range. -/
def raise_for_status (status : Nat) (body : String) : Except HttpxError Unit :=
  if isSuccess status then .ok () else .error (.httpStatusError status body)

/-- The `try` block of `expert` (src/Law_agent.py lines 162-170):
`client.post` either raises a `RequestError` (timeout or connection
failure) or yields a response; then `raise_for_status()` runs, and on
success the raw `response.text` is returned. -/
def expertTry (outcome : HttpOutcome) : Except HttpxError String :=
  match outcome with
  | .timeout d => .error (.requestError d)
  | .connectError d => .error (.requestError d)
  | .response status body => do
      raise_for_status status body
      return body

/-- The in-band message produced by the `except httpx.RequestError`
clause (line 173). -/
def netErrorMsg (desc : String) : String :=
  "Failed to get information from expert due to a network error: " ++ desc

/-- The in-band message produced by the `except httpx.HTTPStatusError`
clause (line 176), carrying the status code and response body. -/
def statusErrorMsg (status : Nat) (body : String) : String :=
  "Failed to get information from expert. The service responded with status "
    ++ toString status ++ ": " ++ body

/-- The whole `expert` tool body with its two exception handlers: every
caught `HttpxError` is converted into an ordinary string, so no listed
exception escapes to the caller. -/
def expertHandled (outcome : HttpOutcome) : Except HttpxError String :=
  match expertTry outcome with
  | .ok t => .ok t
  | .error (.requestError e) => .ok (netErrorMsg e)
  | .error (.httpStatusError s b) => .ok (statusErrorMsg s b)

/-- The string the `expert` tool returns for a given outcome of its HTTP
call. -/
def expert (outcome : HttpOutcome) : String :=
  match expertHandled outcome with
  | .ok t => t
  | .error _ => ""

/-- Failure kinds of the spec's `RetrievalResult` tagged union. -/
inductive FailureKind where
  | networkError
  | httpStatusError
  deriving DecidableEq, Repr

/-- The spec's `RetrievalResult` tagged union: `Success` with a payload
or `Failure` with a kind and a detail string. -/
inductive RetrievalResult where
  | success (payload : String)
  | failure (kind : FailureKind) (detail : String)
  deriving DecidableEq, Repr

/-- Classification of one `expert` invocation by which branch of the
try/except ran: the `try` path is a success carrying the raw body, the
`except httpx.RequestError` path a `networkError` failure, and the
`except httpx.HTTPStatusError` path an `httpStatusError` failure, each
carrying the message the code builds. -/
def expertResult (outcome : HttpOutcome) : RetrievalResult :=
  match expertTry outcome with
  | .ok t => .success t
  | .error (.requestError e) => .failure .networkError (netErrorMsg e)
  | .error (.httpStatusError s b) => .failure .httpStatusError (statusErrorMsg s b)

/-- Rendering of a `RetrievalResult` back to the string the tool hands
to the reasoning engine: the payload on success, the detail message on
failure. -/
def renderResult : RetrievalResult → String
  | .success p => p
  | .failure _ d => d

/-- Whether a `RetrievalResult` is a `success`. -/
def RetrievalResult.isSuccessResult : RetrievalResult → Bool
  | .success _ => true
  | .failure _ _ => false

/-- The tool, as the agent framework sees it: it receives the deps and
returns them untouched together with the result string.  The body of
`expert` only reads `ctx.deps.client` and `ctx.deps.expert_api_key`; no
field is assigned. -/
def expertWithDeps (deps : ExpertDeps) (_query : String) (outcome : HttpOutcome) :
    ExpertDeps × String :=
  (deps, expert outcome)

/-- Whether the agent-level retry mechanism (`retries=1` on the Agent)
is triggered by this tool invocation: it fires only when an exception
escapes the tool, i.e. when `expertHandled` is an `error`. -/
def retryTriggered (outcome : HttpOutcome) : Bool :=
  match expertHandled outcome with
  | .ok _ => false
  | .error _ => true

/-- Construction of the dependencies inside `run_agent_query`
(src/Law_agent.py lines 190-193): the shared client and the value of the
`EXPERT_API_KEY` environment variable, which may be absent. -/
def mkDeps (clientId : Nat) (envKey : Option String) : ExpertDeps :=
  { client := clientId, expert_api_key := envKey }

/-- Events of the `run_agent_query` lifecycle. -/
inductive Event where
  | clientOpen (id : Nat)
  | depsCreate (id : Nat) (key : Option String)
  | toolCall (req : HttpRequest)
  | clientClose (id : Nat)
  deriving DecidableEq, Repr

/-- Whether an event opens the client. -/
def Event.isOpen : Event → Bool
  | .clientOpen _ => true
  | _ => false

/-- Whether an event closes the client. -/
def Event.isClose : Event → Bool
  | .clientClose _ => true
  | _ => false

/-- Trace of one `run_agent_query` call (src/Law_agent.py lines
180-197): the `async with` block opens the client once, the deps are
built once from the client and the environment key, the reasoning engine
then issues some number of tool calls (each using the shared deps), and
on exit of the block the client is closed.  `queries` is the list of
search strings the reasoning engine passes to the tool. -/
def run_agent_query (clientId : Nat) (envKey : Option String)
    (queries : List String) : List Event :=
  .clientOpen clientId :: .depsCreate clientId envKey ::
    (queries.map (fun q => .toolCall (expertRequest (mkDeps clientId envKey) q))
      ++ [.clientClose clientId])

/-- The handled tool body always succeeds with the rendering of the
branch classification: shared shape lemma for the theorems below. -/
theorem expertHandled_eq_ok (outcome : HttpOutcome) :
    expertHandled outcome = .ok (renderResult (expertResult outcome)) := by
  cases outcome with
  | timeout d => rfl
  | connectError d => rfl
  | response s b =>
      simp only [expertHandled, expertResult, expertTry, raise_for_status]
      by_cases h : isSuccess s <;> simp [h, renderResult]

/-- The tool's returned string is the rendering of its branch
classification. -/
theorem expert_eq_render (outcome : HttpOutcome) :
    expert outcome = renderResult (expertResult outcome) := by
  simp [expert, expertHandled_eq_ok]

/-- Claim C1: every `expert` invocation applies the fixed 15-second
timeout; a timeout or connection failure is caught by the
`RequestError` handler and yields the network-error failure carrying a
description, while a response with a status outside the 2xx success
range yields the HTTP-status failure carrying the status and body; a
response inside the success range is the only success path, so every
outcome (the timeout included) resolves to a result and the call never
hangs. -/
theorem expert_timeout_and_failure_kinds :
    (∀ deps query, (expertRequest deps query).timeout = 15) ∧
    (∀ d, expertResult (.timeout d) = .failure .networkError (netErrorMsg d)) ∧
    (∀ d, expertResult (.connectError d) = .failure .networkError (netErrorMsg d)) ∧
    (∀ s b, expertResult (.response s b) =
      if isSuccess s then .success b
      else .failure .httpStatusError (statusErrorMsg s b)) := by
  refine ⟨fun deps query => rfl, fun d => rfl, fun d => rfl, fun s b => ?_⟩
  simp only [expertResult, expertTry, raise_for_status]
  by_cases h : isSuccess s <;> simp [h]

/-- Claim C2: one invocation of `expert` issues exactly one outbound
POST, to the fixed endpoint URL, with header `accept: application/json`
and `X-API-Key` equal to the credential in the session deps, and JSON
body binding `query` to the query string; the deps are returned to the
framework unchanged. -/
theorem expert_single_post_shape :
    ∀ deps query outcome,
      expertCalls deps query = [expertRequest deps query] ∧
      (expertRequest deps query).url =
        "https://n8n-lightrag.dfngk5.easypanel.host/query" ∧
      (expertRequest deps query).accept = "application/json" ∧
      (expertRequest deps query).xApiKey = deps.expert_api_key ∧
      (expertRequest deps query).jsonBody = [("query", query)] ∧
      expertWithDeps deps query outcome = (deps, expert outcome) :=
  fun _ _ _ => ⟨rfl, rfl, rfl, rfl, rfl, rfl⟩

/-- Claim C3: when the HTTP call completes with a status in the success
range, the tool returns exactly the raw response body, untransformed,
and the invocation classifies as a success carrying that body. -/
theorem expert_success_raw_body (s : Nat) (b : String)
    (h : isSuccess s = true) :
    expert (.response s b) = b ∧ expertResult (.response s b) = .success b := by
  constructor
  · rw [expert_eq_render]
    simp [expertResult, expertTry, raise_for_status, h, renderResult]
  · simp [expertResult, expertTry, raise_for_status, h]

/-- Witness for C3 at status 200 and body "hello". -/
theorem expert_success_raw_body_witness :
    expert (.response 200 "hello") = "hello" ∧
    expertResult (.response 200 "hello") = .success "hello" :=
  expert_success_raw_body 200 "hello" (by decide)

/-- Counterexample to claim C4: a 200 response whose body happens to be
the network-error message produces the very same string as a genuine
connection failure, although one invocation is a success and the other
a failure — so a caller of the tool cannot tell success from failure
from the returned value alone. -/
theorem expert_result_not_distinguishable :
    expert (.response 200 (netErrorMsg "boom")) = expert (.connectError "boom") ∧
    (expertResult (.response 200 (netErrorMsg "boom"))).isSuccessResult = true ∧
    (expertResult (.connectError "boom")).isSuccessResult = false := by
  refine ⟨?_, ?_, rfl⟩
  · rw [expert_eq_render, expert_eq_render]
    simp [expertResult, expertTry, raise_for_status, isSuccess, renderResult]
  · simp [expertResult, expertTry, raise_for_status, isSuccess,
      RetrievalResult.isSuccessResult]

/-- Amended claim C4: every result of the `expert` tool is a single,
fully populated string — the raw body when the status is in the success
range, the complete network-error message otherwise caught by the
`RequestError` handler, or the complete status message carrying status
and body — but success and failure share the string type, so the tag is
not recoverable from the value (see the counterexample). -/
theorem expert_result_fully_populated :
    ∀ outcome,
      expert outcome = renderResult (expertResult outcome) ∧
      ((∃ s b, outcome = .response s b ∧ isSuccess s = true ∧
          expertResult outcome = .success b) ∨
       (∃ d, expertResult outcome = .failure .networkError (netErrorMsg d)) ∨
       (∃ s b, expertResult outcome =
          .failure .httpStatusError (statusErrorMsg s b))) := by
  intro outcome
  refine ⟨expert_eq_render outcome, ?_⟩
  cases outcome with
  | timeout d => exact Or.inr (Or.inl ⟨d, rfl⟩)
  | connectError d => exact Or.inr (Or.inl ⟨d, rfl⟩)
  | response s b =>
      by_cases h : isSuccess s
      · refine Or.inl ⟨s, b, rfl, h, ?_⟩
        simp [expertResult, expertTry, raise_for_status, h]
      · refine Or.inr (Or.inr ⟨s, b, ?_⟩)
        simp [expertResult, expertTry, raise_for_status, h]

/-- Claim C8: one `run_agent_query` trace opens the connection resource
exactly once at the start, creates the deps once from that resource and
the environment credential, serves every tool call of the session with
requests carrying that same unmutated credential, and closes the
resource as the last event regardless of how many tool calls were
served; the tool itself never mutates the deps. -/
theorem run_agent_query_lifecycle :
    ∀ clientId envKey queries,
      run_agent_query clientId envKey queries =
        .clientOpen clientId :: .depsCreate clientId envKey ::
          (queries.map
              (fun q => .toolCall (expertRequest (mkDeps clientId envKey) q))
            ++ [.clientClose clientId]) ∧
      (run_agent_query clientId envKey queries).head? =
        some (.clientOpen clientId) ∧
      (run_agent_query clientId envKey queries).getLast? =
        some (.clientClose clientId) ∧
      (run_agent_query clientId envKey queries).countP Event.isOpen = 1 ∧
      (run_agent_query clientId envKey queries).countP Event.isClose = 1 ∧
      (∀ q, (expertRequest (mkDeps clientId envKey) q).xApiKey = envKey) ∧
      (∀ deps q outcome, (expertWithDeps deps q outcome).1 = deps) := by
  intro clientId envKey queries
  refine ⟨rfl, rfl, ?_, ?_, ?_, fun q => rfl, fun deps q outcome => rfl⟩
  · simp only [run_agent_query, ← List.cons_append, List.getLast?_append_cons,
      List.getLast?_singleton]
  · simp [run_agent_query, List.countP_cons, List.countP_append,
      List.countP_map, Event.isOpen, Function.comp]
  · simp [run_agent_query, List.countP_cons, List.countP_append,
      List.countP_map, Event.isClose, Function.comp]

/-- Claim C9: for every outcome of the HTTP call — completion with any
status, or an `httpx` request error (timeout or connection failure) —
the handled tool body resolves to an ordinary string and never lets the
exception escape, so the agent-level retry mechanism, which fires only
on an exception escaping the tool, is never triggered by a retrieval
failure. -/
theorem expert_never_raises :
    ∀ outcome,
      expertHandled outcome = Except.ok (expert outcome) ∧
      retryTriggered outcome = false := by
  intro outcome
  have h := expertHandled_eq_ok outcome
  constructor
  · rw [h, expert_eq_render]
  · simp [retryTriggered, h]

/-- Claim C10: the deps built by `run_agent_query` carry the
environment credential verbatim, `expert` copies that field unchanged
into the `X-API-Key` header with no presence check, the dataclass field
defaults to `None`, and when the environment variable is absent the
single outbound call is still issued with a `None` header value. -/
theorem expert_forwards_credential_unchecked :
    (∀ clientId envKey query,
      (expertRequest (mkDeps clientId envKey) query).xApiKey = envKey ∧
      (expertCalls (mkDeps clientId envKey) query).length = 1) ∧
    (∀ clientId, ({ client := clientId } : ExpertDeps).expert_api_key = none) ∧
    (∀ clientId query,
      (expertRequest (mkDeps clientId none) query).xApiKey = none ∧
      expertCalls (mkDeps clientId none) query =
        [expertRequest (mkDeps clientId none) query]) :=
  ⟨fun _ _ _ => ⟨rfl, rfl⟩, fun _ => rfl, fun _ _ => ⟨rfl, rfl⟩⟩

end LawAgent
